import Mathlib

/-!
Verification of the Umami analytics tracker script (src/tracker/index.js).

The script is an IIFE holding mutable variables (currentUrl, currentRef,
initialized, disabled, cache, identity) and exposing track/identify; it hooks
history.pushState/replaceState and sends JSON bodies of the shape
 JSON.stringify (\x7b type, payload \x7d)  to a collect endpoint via fetch.

We embed it shallowly:
* `ScriptAttrs` records the data-* attributes read from the script tag;
  the derived configuration values (`website`, `tag`, `autoTrack`, `dnt`,
  `excludeSearch`, `excludeHash`, `domain`, `domains`) follow the source.
* `Env` records the ambient browser values destructured from `window`
  (screen size, language, location fields, document.referrer and title,
  Do-Not-Track signals, localStorage, and the resolved before-send callback).
* `TrackerState` holds the IIFE's mutable variables.  The JS `initialized`
  flag is the field `inited`; the install side effects of
  `handlePathChanges` and `handleClicks` are counted by `historyHooks` and
  `clickHandlers`.
* `send` takes the fetch outcome as an oracle (`NetResult`); `sendE` is the
  same computation viewed as the promise `send` returns, with the try/catch
  modelled explicitly: errors of the try block (`sendAttempt`) are produced
  as `Except.error` and the catch clause maps them back to `Except.ok`.
* JS `undefined` is `Option.none`; JSON.stringify omits `undefined` fields
  and serializes `null`, so the payload's `website` field (which is the raw
  possibly-null attribute) has type `Option JStr` with an explicit null.
* Event-data mappings are modelled as flat association lists with opaque
  string values.
* URL resolution by `new URL(url, location.href)` is a browser primitive;
  a push-state target arrives already resolved as a structural `Url`
  (base, search, hash), on which the exclude options act exactly as the
  source's `currentUrl.search = ''` / `currentUrl.hash = ''` assignments.
* The 300 ms `setTimeout(track, delayDuration)` in `handlePush` is collapsed:
  a scheduled track runs immediately after the state update, which preserves
  every property stated here (the delay only defers the send).
-/

/-- A JSON-serializable present value: JS `null` or a string. -/
inductive JStr where
  | null : JStr
  | str : String → JStr
deriving DecidableEq, Repr

/-- The wire payload object.  `none` is JS `undefined`: the field is omitted
by JSON.stringify.  Field order matches the object literal in `getPayload`
followed by the `name`/`data` keys added by `track`/`identify`. -/
structure Payload where
  website : Option JStr := none
  screen : Option String := none
  language : Option String := none
  title : Option String := none
  hostname : Option String := none
  url : Option String := none
  referrer : Option String := none
  tag : Option String := none
  id : Option String := none
  name : Option String := none
  data : Option (List (String × String)) := none
deriving DecidableEq, Repr

/-- A Do-Not-Track signal as read from the browser: absent (null/undefined),
a number, or a string. -/
inductive DntValue where
  | missing : DntValue
  | num : Int → DntValue
  | str : String → DntValue
deriving DecidableEq, Repr

/-- The script-tag attributes read via `attr(_data + ...)`; `none` is a
missing attribute (JS `null`). -/
structure ScriptAttrs where
  websiteAttr : Option String := none
  tagAttr : Option String := none
  autoTrackAttr : Option String := none
  dntAttr : Option String := none
  excludeSearchAttr : Option String := none
  excludeHashAttr : Option String := none
  domainsAttr : Option String := none
deriving DecidableEq, Repr

/-- Ambient browser state destructured from `window` at script start,
plus the resolved `window[beforeSend]` callback (present only when that
global is a function).  `windowLocalStorage = some v` means localStorage
exists and `getItem('umami.disabled')` returns `v` (`none` inside = null). -/
structure Env where
  width : Nat := 0
  height : Nat := 0
  language : String := ""
  title : String := ""
  hostname : String := ""
  href : String := ""
  origin : String := ""
  referrer : String := ""
  doNotTrack : DntValue := DntValue.missing
  ndnt : DntValue := DntValue.missing
  msdnt : DntValue := DntValue.missing
  windowLocalStorage : Option (Option String) := none
  beforeSendCallback : Option (String → Option Payload → Option Payload) := none

/-- The IIFE's mutable variables.  `inited` is the source's `initialized`
flag; `historyHooks` and `clickHandlers` count how many times
`handlePathChanges` and `handleClicks` have installed their hooks. -/
structure TrackerState where
  currentUrl : String := ""
  currentRef : String := ""
  inited : Bool := false
  disabled : Bool := false
  cache : Option String := none
  identity : Option String := none
  historyHooks : Nat := 0
  clickHandlers : Nat := 0
deriving DecidableEq, Repr

/-- `const website = attr(_data + 'website-id')`. -/
def website (a : ScriptAttrs) : Option String := a.websiteAttr

/-- `const tag = attr(_data + 'tag') || undefined` (an empty string is falsy
and becomes undefined). -/
def tag (a : ScriptAttrs) : Option String :=
  match a.tagAttr with
  | some s => if s = "" then none else some s
  | none => none

/-- `const autoTrack = attr(_data + 'auto-track') !== _false`. -/
def autoTrack (a : ScriptAttrs) : Bool := a.autoTrackAttr != some "false"

/-- `const dnt = attr(_data + 'do-not-track') === _true`. -/
def dnt (a : ScriptAttrs) : Bool := a.dntAttr == some "true"

/-- `const excludeSearch = attr(_data + 'exclude-search') === _true`. -/
def excludeSearch (a : ScriptAttrs) : Bool := a.excludeSearchAttr == some "true"

/-- `const excludeHash = attr(_data + 'exclude-hash') === _true`. -/
def excludeHash (a : ScriptAttrs) : Bool := a.excludeHashAttr == some "true"

/-- `const domain = attr(_data + 'domains') || ''`. -/
def domain (a : ScriptAttrs) : String :=
  match a.domainsAttr with
  | some s => s
  | none => ""

/-- JS `String.prototype.startsWith`, computed on the character list. -/
def strStartsWith (s pre : String) : Bool := pre.data.isPrefixOf s.data

/-- JS `String.prototype.split` with a one-character separator: splitting
the empty string yields one empty piece, like `''.split(',')`. -/
def splitChars (sep : Char) : List Char → List (List Char)
  | [] => [[]]
  | c :: cs =>
    let r := splitChars sep cs
    if c = sep then [] :: r
    else
      match r with
      | h :: t => (c :: h) :: t
      | [] => [[c]]

def jsSplit (s : String) (sep : Char) : List String :=
  (splitChars sep s.data).map String.mk

/-- JS `String.prototype.trim`: strip whitespace from both ends. -/
def jsTrim (s : String) : String :=
  String.mk (((s.data.dropWhile Char.isWhitespace).reverse.dropWhile
    Char.isWhitespace).reverse)

/-- `const domains = domain.split(',').map(n => n.trim())`. -/
def domains (a : ScriptAttrs) : List String :=
  (jsSplit (domain a) ',').map jsTrim

/-- `const screen = width + 'x' + height` (template literal). -/
def screen (env : Env) : String := toString env.width ++ "x" ++ toString env.height

/-- JS truthiness of a nullable string: null and the empty string are falsy. -/
def strTruthy : Option String → Bool
  | none => false
  | some s => s != ""

/-- JS truthiness of a Do-Not-Track value. -/
def dntTruthy : DntValue → Bool
  | DntValue.missing => false
  | DntValue.num n => n != 0
  | DntValue.str s => s != ""

/-- `const dnt = doNotTrack || ndnt || msdnt`: the first truthy value,
else the last. -/
def firstDnt (x y z : DntValue) : DntValue :=
  if dntTruthy x then x else if dntTruthy y then y else z

/-- `hasDoNotTrack`: the combined signal is 1, '1' or 'yes'. -/
def hasDoNotTrack (env : Env) : Bool :=
  let d := firstDnt env.doNotTrack env.ndnt env.msdnt
  d == DntValue.num 1 || d == DntValue.str "1" || d == DntValue.str "yes"

/-- `const localStorage = href.startsWith('data:') ? undefined :
window.localStorage`, exposed here as the `getItem('umami.disabled')`
result when the store exists. -/
def localStorageItem (env : Env) : Option (Option String) :=
  if strStartsWith env.href "data:" then none else env.windowLocalStorage

/-- Truthiness of `localStorage && localStorage.getItem('umami.disabled')`. -/
def localStorageOptOut (env : Env) : Bool :=
  match localStorageItem env with
  | none => false
  | some item => strTruthy item

/-- `trackingDisabled`: disabled by the server, no website id, localStorage
opt-out, hostname outside the allowed domains, or a respected DNT signal. -/
def trackingDisabled (a : ScriptAttrs) (env : Env) (st : TrackerState) : Bool :=
  st.disabled || !strTruthy (website a) || localStorageOptOut env ||
  (domain a != "" && !((domains a).contains env.hostname)) ||
  (dnt a && hasDoNotTrack env)

/-- `getPayload`: the base payload built for every tracking request.  The
`website` field is the raw attribute (JSON null when missing); `id` is
`identity ? identity : undefined`, so an empty-string identity is dropped. -/
def getPayload (a : ScriptAttrs) (env : Env) (st : TrackerState) : Payload :=
  { website := some (match website a with
      | some s => JStr.str s
      | none => JStr.null)
    screen := some (screen env)
    language := some env.language
    title := some env.title
    hostname := some env.hostname
    url := some st.currentUrl
    referrer := some st.currentRef
    tag := tag a
    id := match st.identity with
      | some s => if s = "" then none else some s
      | none => none
    name := none
    data := none }

/-- One tracking request as put on the wire by `fetch`: the body is
`JSON.stringify (\x7b type, payload \x7d)` and the `x-umami-cache` header is
attached exactly when the `cache` variable is defined. -/
structure Request where
  rtype : String
  payload : Payload
  cacheHeader : Option String
deriving DecidableEq, Repr

/-- The server's JSON response, after the source's coercions:
`disabled` is `!!data.disabled` and `cache` is `data.cache` (possibly
undefined). -/
structure ServerResponse where
  disabled : Bool
  cache : Option String
deriving DecidableEq, Repr

/-- Outcome of one `fetch` round-trip, supplied as an oracle:
the fetch promise rejects, `res.json()` rejects, the parsed `data` is
falsy, or the parsed `data` is a truthy object. -/
inductive NetResult where
  | fetchReject : NetResult
  | jsonReject : NetResult
  | jsonNull : NetResult
  | jsonData : ServerResponse → NetResult
deriving DecidableEq, Repr

/-- A JS exception escaping the try block of `send`. -/
inductive JsError where
  | fetchFailed : JsError
  | jsonParseFailed : JsError
deriving DecidableEq, Repr

/-- The body of `send`'s try block after the request is on the wire: await
the response, parse it, and store `disabled`/`cache` when `data` is truthy.
Exceptions (a rejected fetch or unparseable body) propagate as errors. -/
def sendAttempt (st : TrackerState) : NetResult → Except JsError TrackerState
  | NetResult.fetchReject => Except.error JsError.fetchFailed
  | NetResult.jsonReject => Except.error JsError.jsonParseFailed
  | NetResult.jsonNull => Except.ok st
  | NetResult.jsonData r =>
    Except.ok { st with disabled := r.disabled, cache := r.cache }

/-- `const callback = window[beforeSend]; if (typeof callback === 'function')
payload = callback(type, payload)`. -/
def beforeSendApply (env : Env) (type : String) (payload : Option Payload) :
    Option Payload :=
  match env.beforeSendCallback with
  | some f => f type payload
  | none => payload

/-- `send(payload, type)`: returns the new tracker state and the list of
requests put on the wire (empty or a singleton).  Early exits: tracking
disabled, or the before-send callback returned a falsy payload.  The
try/catch swallows any failure of `sendAttempt`. -/
def send (a : ScriptAttrs) (env : Env) (st : TrackerState)
    (payload : Option Payload) (type : String) (net : NetResult) :
    TrackerState × List Request :=
  if trackingDisabled a env st then (st, [])
  else
    match beforeSendApply env type payload with
    | none => (st, [])
    | some p =>
      let req : Request := { rtype := type, payload := p, cacheHeader := st.cache }
      match sendAttempt st net with
      | Except.error _ => (st, [req])
      | Except.ok st2 => (st2, [req])

/-- The promise returned by `send`, with JS exceptions as `Except.error`:
the catch clause turns every failure of the try block into a normal
completion, so an `Except.error` result would mean the promise rejects. -/
def sendE (a : ScriptAttrs) (env : Env) (st : TrackerState)
    (payload : Option Payload) (type : String) (net : NetResult) :
    Except JsError (TrackerState × List Request) :=
  if trackingDisabled a env st then Except.ok (st, [])
  else
    match beforeSendApply env type payload with
    | none => Except.ok (st, [])
    | some p =>
      let req : Request := { rtype := type, payload := p, cacheHeader := st.cache }
      match sendAttempt st net with
      | Except.error _ => Except.ok (st, [req])
      | Except.ok st2 => Except.ok (st2, [req])

/-- The argument shapes of `track(name, data)`: no argument (page view),
a string event name with optional data, a direct payload object, or a
function of the base payload (which may return a falsy value). -/
inductive TrackArg where
  | pageView : TrackArg
  | named : String → Option (List (String × String)) → TrackArg
  | objArg : Payload → TrackArg
  | funcArg : (Payload → Option Payload) → TrackArg

/-- `track`: dispatch on the argument type exactly as the source does. -/
def track (a : ScriptAttrs) (env : Env) (st : TrackerState) :
    TrackArg → NetResult → TrackerState × List Request
  | TrackArg.named n d, net =>
    send a env st (some { getPayload a env st with name := some n, data := d }) "event" net
  | TrackArg.objArg p, net => send a env st (some p) "event" net
  | TrackArg.funcArg f, net => send a env st (f (getPayload a env st)) "event" net
  | TrackArg.pageView, net => send a env st (some (getPayload a env st)) "event" net

/-- The promise returned by `track`. -/
def trackE (a : ScriptAttrs) (env : Env) (st : TrackerState) :
    TrackArg → NetResult → Except JsError (TrackerState × List Request)
  | TrackArg.named n d, net =>
    sendE a env st (some { getPayload a env st with name := some n, data := d }) "event" net
  | TrackArg.objArg p, net => sendE a env st (some p) "event" net
  | TrackArg.funcArg f, net => sendE a env st (f (getPayload a env st)) "event" net
  | TrackArg.pageView, net => sendE a env st (some (getPayload a env st)) "event" net

/-- The first argument of `identify(id, data)`: a string id, an object
(taken as the data mapping), or undefined. -/
inductive IdArg where
  | strId : String → IdArg
  | objId : List (String × String) → IdArg
  | undefArg : IdArg

/-- `identify(id, data)`: store a string id as the identity, reset `cache`
to the empty string, and send an identify-typed payload whose `data` is the
object argument when one was given. -/
def identify (a : ScriptAttrs) (env : Env) (st : TrackerState)
    (idArg : IdArg) (dataArg : Option (List (String × String))) (net : NetResult) :
    TrackerState × List Request :=
  let st1 := match idArg with
    | IdArg.strId s => { st with identity := some s }
    | _ => st
  let st2 := { st1 with cache := some "" }
  let payload := { getPayload a env st2 with
    data := match idArg with
      | IdArg.objId d => some d
      | _ => dataArg }
  send a env st2 (some payload) "identify" net

/-- The promise returned by `identify`. -/
def identifyE (a : ScriptAttrs) (env : Env) (st : TrackerState)
    (idArg : IdArg) (dataArg : Option (List (String × String))) (net : NetResult) :
    Except JsError (TrackerState × List Request) :=
  let st1 := match idArg with
    | IdArg.strId s => { st with identity := some s }
    | _ => st
  let st2 := { st1 with cache := some "" }
  let payload := { getPayload a env st2 with
    data := match idArg with
      | IdArg.objId d => some d
      | _ => dataArg }
  sendE a env st2 (some payload) "identify" net

/-- A resolved absolute URL as the `URL` constructor yields it, split into
the part before the query, the query (`search`), and the fragment (`hash`).
`toString` concatenates the three parts. -/
structure Url where
  base : String
  search : String
  hash : String
deriving DecidableEq, Repr

/-- `URL.prototype.toString` on the structural form. -/
def Url.toStr (u : Url) : String := u.base ++ u.search ++ u.hash

/-- The URL string `handlePush` stores: the pushed URL with `search` and
`hash` cleared according to the exclude options. -/
def stripUrl (a : ScriptAttrs) (u : Url) : String :=
  let u1 := if excludeSearch a then { u with search := "" } else u
  let u2 := if excludeHash a then { u1 with hash := "" } else u1
  Url.toStr u2

/-- `handlePush(state, title, url)`: on a truthy url, shift `currentUrl`
into `currentRef`, store the stripped new URL, and report whether a track
call was scheduled (`currentUrl !== currentRef`). -/
def handlePush (a : ScriptAttrs) (st : TrackerState) (url : Option Url) :
    TrackerState × Bool :=
  match url with
  | none => (st, false)
  | some u =>
    let newRef := st.currentUrl
    let newUrl := stripUrl a u
    ({ st with currentRef := newRef, currentUrl := newUrl }, newUrl != newRef)

/-- `init`: guarded by the `initialized` flag; send the initial page view
and install the history hooks (`handlePathChanges`) and the click handler
(`handleClicks`), counted by the two counters. -/
def init (a : ScriptAttrs) (env : Env) (st : TrackerState) (net : NetResult) :
    TrackerState × List Request :=
  if st.inited then (st, [])
  else
    let st1 := { st with inited := true }
    let tr := track a env st1 TrackArg.pageView net
    ({ tr.1 with historyHooks := tr.1.historyHooks + 1,
                 clickHandlers := tr.1.clickHandlers + 1 }, tr.2)

/-- One externally observable operation on the tracker: a `track` call, an
`identify` call, a `history.pushState`/`replaceState` through the installed
hook, or a run of `init` (e.g. from a readystatechange event). -/
inductive Op where
  | trackOp : TrackArg → Op
  | identifyOp : IdArg → Option (List (String × String)) → Op
  | pushStateOp : Option Url → Op
  | initOp : Op

/-- Which operations send payloads built from `getPayload` (page views,
named events, identify); `track` with an object or function argument sends
whatever the caller supplies. -/
def getPayloadBased : Op → Bool
  | Op.trackOp (TrackArg.objArg _) => false
  | Op.trackOp (TrackArg.funcArg _) => false
  | _ => true

/-- Execute one operation: the state update plus the requests emitted
(a scheduled push-state track runs with the updated state). -/
def step (a : ScriptAttrs) (env : Env) (st : TrackerState) :
    Op → NetResult → TrackerState × List Request
  | Op.trackOp arg, net => track a env st arg net
  | Op.identifyOp i d, net => identify a env st i d net
  | Op.pushStateOp u, net =>
    let hp := handlePush a st u
    if hp.2 then track a env hp.1 TrackArg.pageView net else (hp.1, [])
  | Op.initOp, net => init a env st net

/-- Run a sequence of operations, each with its own fetch outcome,
collecting every request put on the wire. -/
def run (a : ScriptAttrs) (env : Env) :
    TrackerState → List (Op × NetResult) → TrackerState × List Request
  | st, [] => (st, [])
  | st, x :: rest =>
    let s1 := step a env st x.1 x.2
    let s2 := run a env s1.1 rest
    (s2.1, s1.2 ++ s2.2)

/-- The variable initialization at the bottom of the IIFE: `currentUrl`
is `href` unmodified and `currentRef` is the referrer, emptied when it
starts with the page's origin. -/
def freshState (env : Env) : TrackerState :=
  { currentUrl := env.href
    currentRef := if strStartsWith env.referrer env.origin then "" else env.referrer
    inited := false
    disabled := false
    cache := none
    identity := none
    historyHooks := 0
    clickHandlers := 0 }

/-- A JSON value, as far as the wire body needs: null, strings, and
objects with ordered fields. -/
inductive J where
  | null : J
  | str : String → J
  | obj : List (String × J) → J

def jOfJStr : JStr → J
  | JStr.null => J.null
  | JStr.str s => J.str s

def jOfData (d : List (String × String)) : J :=
  J.obj (d.map (fun kv => (kv.1, J.str kv.2)))

/-- One optional field of the serialized object: omitted when undefined. -/
def optField (k : String) : Option J → List (String × J)
  | some v => [(k, v)]
  | none => []

/-- The fields JSON.stringify produces for a payload, in object order,
with undefined fields omitted. -/
def payloadFields (p : Payload) : List (String × J) :=
  optField "website" (p.website.map jOfJStr) ++
  optField "screen" (p.screen.map J.str) ++
  optField "language" (p.language.map J.str) ++
  optField "title" (p.title.map J.str) ++
  optField "hostname" (p.hostname.map J.str) ++
  optField "url" (p.url.map J.str) ++
  optField "referrer" (p.referrer.map J.str) ++
  optField "tag" (p.tag.map J.str) ++
  optField "id" (p.id.map J.str) ++
  optField "name" (p.name.map J.str) ++
  optField "data" (p.data.map jOfData)

def payloadJson (p : Payload) : J := J.obj (payloadFields p)

/-- The HTTP body `JSON.stringify (\x7b type, payload \x7d)` as a JSON tree. -/
def requestBody (r : Request) : J :=
  J.obj [("type", J.str r.rtype), ("payload", payloadJson r.payload)]

/-- Does a serialized object carry field `k`? -/
def jHasKey (kvs : List (String × J)) (k : String) : Bool :=
  kvs.any (fun kv => kv.1 == k)

def mandatoryKeys : List String :=
  ["website", "screen", "language", "title", "hostname", "url", "referrer"]

def allowedKeys : List String :=
  ["website", "screen", "language", "title", "hostname", "url", "referrer",
   "tag", "id", "name", "data"]

/-! Concrete fixtures used by witnesses and counterexamples. -/

/-- A minimal valid configuration: only the website id is set. -/
def attrs0 : ScriptAttrs := { websiteAttr := some "abc-123" }

/-- The same configuration with `data-exclude-search="true"`. -/
def attrsES : ScriptAttrs :=
  { websiteAttr := some "abc-123", excludeSearchAttr := some "true" }

/-- A script tag with no `data-website-id` attribute. -/
def attrsNoW : ScriptAttrs := {}

/-- A plain browser environment with no before-send callback. -/
def env0 : Env :=
  { width := 1920, height := 1080, language := "en-US", title := "Home",
    hostname := "example.com", href := "https://example.com/",
    origin := "https://example.com", referrer := "" }

/-- The same environment on a page whose URL carries a query string. -/
def envQ : Env := { env0 with href := "https://example.com/page?q=1" }

/-- An environment whose before-send callback deletes the website field. -/
def envStripWebsite : Env :=
  { env0 with
    beforeSendCallback := some (fun _ p? => p?.map (fun p => { p with website := none })) }

/-- An environment whose before-send callback deletes the id field. -/
def envStripId : Env :=
  { env0 with
    beforeSendCallback := some (fun _ p? => p?.map (fun p => { p with id := none })) }

/-- The empty object `{}` passed to `track` as a direct payload. -/
def emptyPayload : Payload := {}

/-- A push-state target equal to the fresh page URL. -/
def urlSame : Url := { base := "https://example.com/", search := "", hash := "" }

/-! Helper lemmas. -/

theorem isSomeMap {α β : Type} (f : α → β) (o : Option α) :
    (o.map f).isSome = o.isSome := by cases o <;> rfl

theorem jHasKey_append (A B : List (String × J)) (k : String) :
    jHasKey (A ++ B) k = (jHasKey A k || jHasKey B k) := by
  simp [jHasKey, List.any_append]

theorem jHasKey_optField (k k2 : String) (v : Option J) :
    jHasKey (optField k v) k2 = (v.isSome && (k == k2)) := by
  cases v <;> simp [optField, jHasKey]

theorem optField_key (k : String) (v : Option J) (kv : String × J)
    (h : kv ∈ optField k v) : kv.1 = k := by
  cases v with
  | none => simp [optField] at h
  | some x =>
    simp [optField] at h
    rw [h]

/-- Whatever the payload, JSON.stringify only ever produces the eleven
known field names. -/
theorem keys_allowed (p : Payload) :
    (payloadFields p).all (fun kv => allowedKeys.contains kv.1) = true := by
  apply List.all_eq_true.mpr
  intro kv hkv
  unfold payloadFields at hkv
  simp only [List.mem_append] at hkv
  rcases hkv with ((((((((((h | h) | h) | h) | h) | h) | h) | h) | h) | h) | h) <;>
    simp only [optField_key _ _ _ h] <;> decide

/-- A payload whose seven base fields are all defined serializes with the
seven mandatory keys present. -/
theorem mandatory_present (p : Payload)
    (hw : p.website.isSome = true) (hs : p.screen.isSome = true)
    (hl : p.language.isSome = true) (ht : p.title.isSome = true)
    (hh : p.hostname.isSome = true) (hu : p.url.isSome = true)
    (hr : p.referrer.isSome = true) :
    mandatoryKeys.all (jHasKey (payloadFields p)) = true := by
  simp [mandatoryKeys, payloadFields, jHasKey_append, jHasKey_optField,
    isSomeMap, hw, hs, hl, ht, hh, hu, hr]

/-- A state with the server-disabled flag set fails the very first
disjunct of `trackingDisabled`. -/
theorem trackingDisabled_of_disabled (a : ScriptAttrs) (env : Env)
    (st : TrackerState) (h : st.disabled = true) :
    trackingDisabled a env st = true := by
  simp [trackingDisabled, h]

/-- A falsy website id fails the second disjunct of `trackingDisabled`. -/
theorem trackingDisabled_of_no_website (a : ScriptAttrs) (env : Env)
    (st : TrackerState) (h : strTruthy (website a) = false) :
    trackingDisabled a env st = true := by
  simp [trackingDisabled, h]

/-- When tracking is disabled, `send` returns before doing anything. -/
theorem send_of_trackingDisabled (a : ScriptAttrs) (env : Env)
    (st : TrackerState) (p? : Option Payload) (t : String) (net : NetResult)
    (h : trackingDisabled a env st = true) :
    send a env st p? t net = (st, []) := by
  simp [send, h]

/-- Case analysis on everything `send` can do: either nothing goes on the
wire and the state is untouched, or exactly one request goes out, built
from the before-send result, typed `t`, carrying the current cache value,
and the state is either unchanged or updated from a truthy response. -/
theorem send_shape (a : ScriptAttrs) (env : Env) (st : TrackerState)
    (p? : Option Payload) (t : String) (net : NetResult) :
    send a env st p? t net = (st, []) ∨
    ∃ p st2,
      send a env st p? t net
        = (st2, [{ rtype := t, payload := p, cacheHeader := st.cache }]) ∧
      beforeSendApply env t p? = some p ∧
      (st2 = st ∨ ∃ r, net = NetResult.jsonData r ∧
        st2 = { st with disabled := r.disabled, cache := r.cache }) := by
  unfold send
  split
  · exact Or.inl rfl
  · cases hb : beforeSendApply env t p? with
    | none => exact Or.inl rfl
    | some p =>
      cases net with
      | fetchReject => exact Or.inr ⟨p, st, rfl, rfl, Or.inl rfl⟩
      | jsonReject => exact Or.inr ⟨p, st, rfl, rfl, Or.inl rfl⟩
      | jsonNull => exact Or.inr ⟨p, st, rfl, rfl, Or.inl rfl⟩
      | jsonData r =>
        exact Or.inr ⟨p, { st with disabled := r.disabled, cache := r.cache },
          rfl, rfl, Or.inr ⟨r, rfl, rfl⟩⟩

/-- `send` puts at most one request on the wire. -/
theorem send_len (a : ScriptAttrs) (env : Env) (st : TrackerState)
    (p? : Option Payload) (t : String) (net : NetResult) :
    (send a env st p? t net).2.length ≤ 1 := by
  rcases send_shape a env st p? t net with h | ⟨p, st2, h, _, _⟩ <;>
    rw [h] <;> simp

/-- `send` only ever touches the `disabled` and `cache` variables. -/
theorem send_preserves (a : ScriptAttrs) (env : Env) (st : TrackerState)
    (p? : Option Payload) (t : String) (net : NetResult) :
    (send a env st p? t net).1.currentUrl = st.currentUrl ∧
    (send a env st p? t net).1.currentRef = st.currentRef ∧
    (send a env st p? t net).1.inited = st.inited ∧
    (send a env st p? t net).1.identity = st.identity ∧
    (send a env st p? t net).1.historyHooks = st.historyHooks ∧
    (send a env st p? t net).1.clickHandlers = st.clickHandlers := by
  rcases send_shape a env st p? t net with h | ⟨p, st2, h, _, hst⟩
  · rw [h]
    exact ⟨rfl, rfl, rfl, rfl, rfl, rfl⟩
  · rw [h]
    rcases hst with rfl | ⟨r, _, rfl⟩ <;> exact ⟨rfl, rfl, rfl, rfl, rfl, rfl⟩

/-- Every request `send` emits satisfies `P` provided `P` holds of every
request built from a possible before-send result with the current cache. -/
theorem send_req_all (a : ScriptAttrs) (env : Env) (st : TrackerState)
    (p? : Option Payload) (t : String) (net : NetResult) (P : Request → Bool)
    (h : ∀ p, beforeSendApply env t p? = some p →
      P { rtype := t, payload := p, cacheHeader := st.cache } = true) :
    ((send a env st p? t net).2.all P) = true := by
  rcases send_shape a env st p? t net with hs | ⟨p, st2, hs, hb, _⟩
  · rw [hs]
    rfl
  · rw [hs]
    simp [h p hb]

/-- Without a before-send callback the payload goes through unchanged. -/
theorem beforeSendApply_none (env : Env) (t : String) (p? : Option Payload)
    (h : env.beforeSendCallback = none) : beforeSendApply env t p? = p? := by
  simp [beforeSendApply, h]

/-- `send` from a server-disabled state is a no-op. -/
theorem send_of_disabled (a : ScriptAttrs) (env : Env) (st : TrackerState)
    (p? : Option Payload) (t : String) (net : NetResult)
    (h : st.disabled = true) : send a env st p? t net = (st, []) :=
  send_of_trackingDisabled a env st p? t net
    (trackingDisabled_of_disabled a env st h)

/-- `track` emits at most one request. -/
theorem track_len (a : ScriptAttrs) (env : Env) (st : TrackerState)
    (arg : TrackArg) (net : NetResult) :
    (track a env st arg net).2.length ≤ 1 := by
  cases arg <;> exact send_len a env st _ "event" net

/-- `track` only ever touches the `disabled` and `cache` variables. -/
theorem track_preserves (a : ScriptAttrs) (env : Env) (st : TrackerState)
    (arg : TrackArg) (net : NetResult) :
    (track a env st arg net).1.currentUrl = st.currentUrl ∧
    (track a env st arg net).1.currentRef = st.currentRef ∧
    (track a env st arg net).1.inited = st.inited ∧
    (track a env st arg net).1.identity = st.identity ∧
    (track a env st arg net).1.historyHooks = st.historyHooks ∧
    (track a env st arg net).1.clickHandlers = st.clickHandlers := by
  cases arg <;> exact send_preserves a env st _ "event" net

/-- Once the server-disabled flag is set, any single operation emits no
request and leaves the flag set. -/
theorem step_disabled (a : ScriptAttrs) (env : Env) (st : TrackerState)
    (op : Op) (net : NetResult) (h : st.disabled = true) :
    (step a env st op net).2 = [] ∧ (step a env st op net).1.disabled = true := by
  cases op with
  | trackOp arg =>
    cases arg <;> simp [step, track, send_of_disabled, h]
  | identifyOp i d =>
    cases i <;> simp [step, identify, send_of_disabled, h]
  | pushStateOp u =>
    cases u with
    | none => simp [step, handlePush, h]
    | some uu =>
      simp only [step, handlePush]
      split
      · simp [track, send_of_disabled, h]
      · simp [h]
  | initOp =>
    by_cases hi : st.inited <;>
      simp [step, init, track, send_of_disabled, h, hi]

/-- A second run of `init` is a guarded no-op. -/
theorem init_of_inited (a : ScriptAttrs) (env : Env) (st : TrackerState)
    (net : NetResult) (h : st.inited = true) : init a env st net = (st, []) := by
  simp [init, h]

/-- After any run of `init` the guard flag is set. -/
theorem init_inited (a : ScriptAttrs) (env : Env) (st : TrackerState)
    (net : NetResult) : (init a env st net).1.inited = true := by
  by_cases h : st.inited
  · simp [init, h]
  · simp only [init, Bool.not_eq_true] at h ⊢
    rw [h]
    simp
    exact (track_preserves a env { st with inited := true } TrackArg.pageView net).2.2.1

/-- A first run of `init` from a not-yet-initialized state: at most one
page view goes out and each hook installer runs exactly once. -/
theorem init_shape (a : ScriptAttrs) (env : Env) (st : TrackerState)
    (net : NetResult) (h : st.inited = false) :
    (init a env st net).2.length ≤ 1 ∧
    (init a env st net).1.historyHooks = st.historyHooks + 1 ∧
    (init a env st net).1.clickHandlers = st.clickHandlers + 1 := by
  simp only [init, h, Bool.false_eq_true, if_false]
  refine ⟨track_len a env { st with inited := true } TrackArg.pageView net, ?_, ?_⟩
  · simpa using
      (track_preserves a env { st with inited := true } TrackArg.pageView net).2.2.2.2.1
  · simpa using
      (track_preserves a env { st with inited := true } TrackArg.pageView net).2.2.2.2.2

/-- Any further `init` runs after the first are no-ops. -/
theorem run_inits_inited (a : ScriptAttrs) (env : Env) (st : TrackerState)
    (nets : List NetResult) (h : st.inited = true) :
    run a env st (nets.map fun n => (Op.initOp, n)) = (st, []) := by
  induction nets with
  | nil => rfl
  | cons n rest ih => simp [run, step, init_of_inited a env st n h, ih]

/-- The promise view of `send` never takes the error path out of the
whole function: the catch clause intercepts every try-block failure. -/
theorem sendE_eq (a : ScriptAttrs) (env : Env) (st : TrackerState)
    (p? : Option Payload) (t : String) (net : NetResult) :
    sendE a env st p? t net = Except.ok (send a env st p? t net) := by
  unfold sendE send
  by_cases hd : trackingDisabled a env st = true
  · simp [hd]
  · simp only [Bool.not_eq_true] at hd
    simp only [hd, Bool.false_eq_true, if_false]
    cases hb : beforeSendApply env t p? with
    | none => rfl
    | some p => cases net <;> rfl

/-- When the fetch outcome carries no truthy response object, `send`
leaves the state untouched. -/
theorem send_fst_of_not_data (a : ScriptAttrs) (env : Env) (st : TrackerState)
    (p? : Option Payload) (t : String) (net : NetResult)
    (h : ∀ r, net ≠ NetResult.jsonData r) :
    (send a env st p? t net).1 = st := by
  rcases send_shape a env st p? t net with hs | ⟨p, st2, hs, _, hst⟩
  · rw [hs]
  · rw [hs]
    rcases hst with rfl | ⟨r, hnet, _⟩
    · rfl
    · exact absurd hnet (h r)

/-- C2: for every call to `track` or `identify`, the returned promise
resolves — no exception escapes to the host page — even when the fetch
rejects or the response body cannot be parsed as JSON; in those two
failure cases the try block does raise, the catch swallows it, and the
tracker state is unchanged, so later calls behave as before. -/
theorem c2_promise_never_rejects :
    ∀ (a : ScriptAttrs) (env : Env) (st : TrackerState) (arg : TrackArg)
      (i : IdArg) (d : Option (List (String × String)))
      (p? : Option Payload) (t : String) (net : NetResult),
    trackE a env st arg net = Except.ok (track a env st arg net)
    ∧ identifyE a env st i d net = Except.ok (identify a env st i d net)
    ∧ sendAttempt st NetResult.fetchReject = Except.error JsError.fetchFailed
    ∧ sendAttempt st NetResult.jsonReject = Except.error JsError.jsonParseFailed
    ∧ (send a env st p? t NetResult.fetchReject).1 = st
    ∧ (send a env st p? t NetResult.jsonReject).1 = st := by
  intro a env st arg i d p? t net
  refine ⟨?_, ?_, rfl, rfl, ?_, ?_⟩
  · cases arg <;> exact sendE_eq a env st _ "event" net
  · cases i <;> exact sendE_eq a env _ _ "identify" net
  · exact send_fst_of_not_data a env st p? t NetResult.fetchReject
      (fun r h => by cases h)
  · exact send_fst_of_not_data a env st p? t NetResult.jsonReject
      (fun r h => by cases h)

/-- Once the server-disabled flag is stored, every later operation emits
nothing, for any sequence of operations. -/
theorem run_disabled (a : ScriptAttrs) (env : Env) :
    ∀ (ops : List (Op × NetResult)) (st : TrackerState),
    st.disabled = true →
    (run a env st ops).2 = [] ∧ (run a env st ops).1.disabled = true := by
  intro ops
  induction ops with
  | nil => exact fun st h => ⟨rfl, h⟩
  | cons x rest ih =>
    intro st h
    obtain ⟨h1, h2⟩ := step_disabled a env st x.1 x.2 h
    obtain ⟨h3, h4⟩ := ih (step a env st x.1 x.2).1 h2
    simp [run, h1, h3, h4]

/-- C3: processing a server response with a truthy `disabled` stores the
flag, and from a state with the flag stored, no operation — track,
identify, push-state navigation, or init — ever puts a request on the
wire again, and the flag stays set for the rest of the page's life. -/
theorem c3_disabled_stops_requests :
    ∀ (a : ScriptAttrs) (env : Env) (st : TrackerState)
      (ops : List (Op × NetResult)) (r : ServerResponse),
    sendAttempt st (NetResult.jsonData r)
      = Except.ok { st with disabled := r.disabled, cache := r.cache }
    ∧ (st.disabled = true →
        (run a env st ops).2 = [] ∧ (run a env st ops).1.disabled = true) := by
  intro a env st ops r
  exact ⟨rfl, fun h => run_disabled a env ops st h⟩

/-- Witness for C3 at a disabled state over one operation of each kind. -/
theorem c3_witness :
    (run attrs0 env0 { freshState env0 with disabled := true }
        [(Op.trackOp TrackArg.pageView, NetResult.jsonNull),
         (Op.identifyOp (IdArg.strId "u") none, NetResult.jsonNull),
         (Op.pushStateOp (some urlSame), NetResult.jsonNull),
         (Op.initOp, NetResult.jsonNull)]).2 = []
    ∧ (run attrs0 env0 { freshState env0 with disabled := true }
        [(Op.trackOp TrackArg.pageView, NetResult.jsonNull),
         (Op.identifyOp (IdArg.strId "u") none, NetResult.jsonNull),
         (Op.pushStateOp (some urlSame), NetResult.jsonNull),
         (Op.initOp, NetResult.jsonNull)]).1.disabled = true :=
  (c3_disabled_stops_requests attrs0 env0 { freshState env0 with disabled := true }
    [(Op.trackOp TrackArg.pageView, NetResult.jsonNull),
     (Op.identifyOp (IdArg.strId "u") none, NetResult.jsonNull),
     (Op.pushStateOp (some urlSame), NetResult.jsonNull),
     (Op.initOp, NetResult.jsonNull)] { disabled := false, cache := none }).2 rfl

/-- A falsy website id silences `send` whatever the rest of the state. -/
theorem send_of_no_website (a : ScriptAttrs) (env : Env) (st : TrackerState)
    (p? : Option Payload) (t : String) (net : NetResult)
    (h : strTruthy (website a) = false) : send a env st p? t net = (st, []) :=
  send_of_trackingDisabled a env st p? t net
    (trackingDisabled_of_no_website a env st h)

/-- C6: when the `data-website-id` attribute is absent or empty, neither
`track` nor `identify` ever issues a network request, so no payload
missing the website identifier can reach a store via this client. -/
theorem c6_no_website_no_request :
    ∀ (a : ScriptAttrs) (env : Env) (st : TrackerState) (arg : TrackArg)
      (i : IdArg) (d : Option (List (String × String))) (net : NetResult),
    (a.websiteAttr = none ∨ a.websiteAttr = some "") →
    (track a env st arg net).2 = [] ∧ (identify a env st i d net).2 = [] := by
  intro a env st arg i d net h
  have hw : strTruthy (website a) = false := by
    rcases h with h | h <;> simp [website, strTruthy, h]
  constructor
  · cases arg <;> simp [track, send_of_no_website, hw]
  · cases i <;> simp [identify, send_of_no_website, hw]

/-- Witness for C6 on a script tag with no website id. -/
theorem c6_witness :
    (track attrsNoW env0 (freshState env0) TrackArg.pageView NetResult.jsonNull).2 = []
    ∧ (identify attrsNoW env0 (freshState env0) (IdArg.strId "u") none
        NetResult.jsonNull).2 = [] :=
  c6_no_website_no_request attrsNoW env0 (freshState env0) TrackArg.pageView
    (IdArg.strId "u") none NetResult.jsonNull (Or.inl rfl)

/-- C8: the hook on pushState/replaceState schedules a tracking call
exactly when the target URL, after the configured exclusions, differs
from the currently tracked URL; on an equal URL (or a falsy one) the
operation emits no page-view request at all. -/
theorem c8_same_url_push_no_event :
    ∀ (a : ScriptAttrs) (env : Env) (st : TrackerState) (u : Url)
      (net : NetResult),
    (handlePush a st (some u)).2 = (stripUrl a u != st.currentUrl)
    ∧ (stripUrl a u = st.currentUrl →
        (step a env st (Op.pushStateOp (some u)) net).2 = [])
    ∧ (step a env st (Op.pushStateOp none) net).2 = [] := by
  intro a env st u net
  refine ⟨rfl, ?_, rfl⟩
  intro h
  simp [step, handlePush, h]

/-- Witness for C8: pushing the page's own URL emits nothing. -/
theorem c8_witness :
    (handlePush attrs0 (freshState env0) (some urlSame)).2
      = (stripUrl attrs0 urlSame != (freshState env0).currentUrl)
    ∧ (step attrs0 env0 (freshState env0) (Op.pushStateOp (some urlSame))
        NetResult.jsonNull).2 = [] :=
  ⟨(c8_same_url_push_no_event attrs0 env0 (freshState env0) urlSame
      NetResult.jsonNull).1,
   (c8_same_url_push_no_event attrs0 env0 (freshState env0) urlSame
      NetResult.jsonNull).2.1 (by decide)⟩

/-- C9: the initial `currentRef` is the empty string when the document
referrer starts with the page's origin and the raw referrer otherwise,
and the payload of the page view sent by `init` carries exactly that
value in its referrer field. -/
theorem c9_initial_referrer :
    ∀ (a : ScriptAttrs) (env : Env) (net : NetResult),
    env.beforeSendCallback = none →
    (freshState env).currentRef
      = (if strStartsWith env.referrer env.origin then "" else env.referrer)
    ∧ ((step a env (freshState env) Op.initOp net).2.all
        (fun r => r.payload.referrer
          == some (if strStartsWith env.referrer env.origin then ""
                   else env.referrer))) = true := by
  intro a env net hb
  refine ⟨rfl, ?_⟩
  have hstep : (step a env (freshState env) Op.initOp net).2
      = (send a env { freshState env with inited := true }
          (some (getPayload a env { freshState env with inited := true }))
          "event" net).2 := rfl
  rw [hstep]
  apply send_req_all
  intro p hp
  rw [beforeSendApply_none env _ _ hb] at hp
  injection hp with hp
  subst hp
  simp [getPayload, freshState]

/-- Witness for C9 in the plain environment. -/
theorem c9_witness :
    (freshState env0).currentRef
      = (if strStartsWith env0.referrer env0.origin then "" else env0.referrer)
    ∧ ((step attrs0 env0 (freshState env0) Op.initOp NetResult.jsonNull).2.all
        (fun r => r.payload.referrer
          == some (if strStartsWith env0.referrer env0.origin then ""
                   else env0.referrer))) = true :=
  c9_initial_referrer attrs0 env0 NetResult.jsonNull rfl

/-- C10: however many times `init` runs from a fresh page (for example on
repeated readystatechange events), at most one initial page view goes on
the wire and the history hooks and the click handler are each installed
at most once. -/
theorem c10_init_idempotent :
    ∀ (a : ScriptAttrs) (env : Env) (nets : List NetResult),
    (run a env (freshState env) (nets.map fun n => (Op.initOp, n))).2.length ≤ 1
    ∧ (run a env (freshState env)
        (nets.map fun n => (Op.initOp, n))).1.historyHooks ≤ 1
    ∧ (run a env (freshState env)
        (nets.map fun n => (Op.initOp, n))).1.clickHandlers ≤ 1 := by
  intro a env nets
  cases nets with
  | nil => exact ⟨by simp [run], by simp [run, freshState], by simp [run, freshState]⟩
  | cons n rest =>
    obtain ⟨hlen, hhooks, hclicks⟩ := init_shape a env (freshState env) n rfl
    have h1 : (init a env (freshState env) n).1.inited = true :=
      init_inited a env (freshState env) n
    have h2 := run_inits_inited a env (init a env (freshState env) n).1 rest h1
    simp only [List.map_cons, run, step, h2]
    refine ⟨?_, ?_, ?_⟩
    · simpa using hlen
    · simp only [hhooks]
      simp [freshState]
    · simp only [hclicks]
      simp [freshState]

/-- Any `send` of a payload with the seven base fields defined, typed
"event" or "identify", yields only well-formed wire bodies when no
before-send callback is configured. -/
theorem send_wire_ok (a : ScriptAttrs) (env : Env) (st : TrackerState)
    (p : Payload) (t : String) (net : NetResult)
    (hb : env.beforeSendCallback = none)
    (ht : (t == "event" || t == "identify") = true)
    (hw : p.website.isSome = true) (hs : p.screen.isSome = true)
    (hl : p.language.isSome = true) (hti : p.title.isSome = true)
    (hh : p.hostname.isSome = true) (hu : p.url.isSome = true)
    (hr : p.referrer.isSome = true) :
    ((send a env st (some p) t net).2.all (fun r =>
        (r.rtype == "event" || r.rtype == "identify")
        && mandatoryKeys.all (jHasKey (payloadFields r.payload))
        && (payloadFields r.payload).all
            (fun kv => allowedKeys.contains kv.1))) = true := by
  apply send_req_all
  intro q hq
  rw [beforeSendApply_none env t (some p) hb] at hq
  injection hq with hq
  subst hq
  show ((t == "event" || t == "identify")
    && mandatoryKeys.all (jHasKey (payloadFields p))
    && (payloadFields p).all (fun kv => allowedKeys.contains kv.1)) = true
  rw [ht, mandatory_present p hw hs hl hti hh hu hr, keys_allowed p]
  rfl

/-- C1 counterexample: with a configured website id, `track` called with a
direct object payload (the source's "advanced usage" branch) emits a
request typed "event" whose JSON payload has no `website` field at all;
and a before-send callback can likewise remove the field from a plain
page view.  So not every emitted request's payload carries the documented
fields. -/
theorem c1_counterexample :
    ((step attrs0 env0 (freshState env0)
        (Op.trackOp (TrackArg.objArg emptyPayload)) NetResult.jsonNull).2.map
      (fun r => (r.rtype, jHasKey (payloadFields r.payload) "website")))
      = [("event", false)]
    ∧ ((step attrs0 envStripWebsite (freshState envStripWebsite)
        (Op.trackOp TrackArg.pageView) NetResult.jsonNull).2.map
      (fun r => jHasKey (payloadFields r.payload) "website")) = [false] := by
  exact ⟨by decide, by decide⟩

/-- C1 (amended): every request emitted by a page view, a named event, an
identify call, a push-state navigation or init — i.e. every request whose
payload is built from `getPayload` — when no before-send callback is
configured, has body `JSON.stringify (\x7b type, payload \x7d)` with type
"event" or "identify" and a payload that contains the website, screen,
language, title, hostname, url and referrer fields and only the eleven
documented field names; `track` called with a direct object or function
payload instead sends whatever the caller supplied. -/
theorem c1_amended_wire_format :
    ∀ (a : ScriptAttrs) (env : Env) (st : TrackerState) (op : Op)
      (net : NetResult),
    env.beforeSendCallback = none → getPayloadBased op = true →
    ((step a env st op net).2.all (fun r =>
        (r.rtype == "event" || r.rtype == "identify")
        && mandatoryKeys.all (jHasKey (payloadFields r.payload))
        && (payloadFields r.payload).all
            (fun kv => allowedKeys.contains kv.1))) = true := by
  intro a env st op net hb hg
  cases op with
  | trackOp arg =>
    cases arg with
    | pageView =>
      exact send_wire_ok a env st (getPayload a env st) "event" net hb rfl
        rfl rfl rfl rfl rfl rfl rfl
    | named n d =>
      exact send_wire_ok a env st
        { getPayload a env st with name := some n, data := d } "event" net hb rfl
        rfl rfl rfl rfl rfl rfl rfl
    | objArg p => simp [getPayloadBased] at hg
    | funcArg f => simp [getPayloadBased] at hg
  | identifyOp i d =>
    exact send_wire_ok a env _ _ "identify" net hb rfl rfl rfl rfl rfl rfl rfl rfl
  | pushStateOp u =>
    cases u with
    | none => rfl
    | some uu =>
      simp only [step]
      split
      · exact send_wire_ok a env _ _ "event" net hb rfl rfl rfl rfl rfl rfl rfl rfl
      · rfl
  | initOp =>
    by_cases hi : st.inited = true
    · simp [step, init, hi]
    · have hi2 : st.inited = false := by simpa using hi
      have hstep : (step a env st Op.initOp net).2
          = (send a env { st with inited := true }
              (some (getPayload a env { st with inited := true }))
              "event" net).2 := by
        simp [step, init, track, hi2]
      rw [hstep]
      exact send_wire_ok a env _ _ "event" net hb rfl rfl rfl rfl rfl rfl rfl rfl

/-- Witness for the amended C1 on a plain page view. -/
theorem c1_amended_witness :
    ((step attrs0 env0 (freshState env0) (Op.trackOp TrackArg.pageView)
        NetResult.jsonNull).2.all (fun r =>
        (r.rtype == "event" || r.rtype == "identify")
        && mandatoryKeys.all (jHasKey (payloadFields r.payload))
        && (payloadFields r.payload).all
            (fun kv => allowedKeys.contains kv.1))) = true :=
  c1_amended_wire_format attrs0 env0 (freshState env0)
    (Op.trackOp TrackArg.pageView) NetResult.jsonNull rfl rfl

/-- C4 counterexample: on a fresh page, before any server response has
supplied a token, the very first `identify` call already sends the
`x-umami-cache` header — with the empty string `identify` assigns to the
`cache` variable before sending — so the header is not omitted until a
token arrives. -/
theorem c4_counterexample :
    (freshState env0).cache = none
    ∧ ((step attrs0 env0 (freshState env0)
        (Op.identifyOp (IdArg.strId "user-1") none) NetResult.jsonNull).2.map
      (fun r => r.cacheHeader)) = [some ""] := by
  exact ⟨rfl, by decide⟩

/-- C4 (amended): every request carries the `x-umami-cache` header exactly
when the `cache` variable is defined, with its current value: a `track`
request echoes the stored value (initially undefined, hence omitted; after
a truthy response, whatever `data.cache` held), while `identify` resets
`cache` to the empty string before sending, so its own request and any
later ones until the next response carry an empty header value. -/
theorem c4_amended_cache_header :
    ∀ (a : ScriptAttrs) (env : Env) (st : TrackerState) (arg : TrackArg)
      (i : IdArg) (d : Option (List (String × String))) (net : NetResult)
      (r : ServerResponse),
    ((track a env st arg net).2.all (fun q => q.cacheHeader == st.cache)) = true
    ∧ ((identify a env st i d net).2.all
        (fun q => q.cacheHeader == some "")) = true
    ∧ sendAttempt st (NetResult.jsonData r)
        = Except.ok { st with disabled := r.disabled, cache := r.cache }
    ∧ (freshState env).cache = none := by
  intro a env st arg i d net r
  refine ⟨?_, ?_, rfl, rfl⟩
  · cases arg <;>
      exact send_req_all a env st _ "event" net _ (fun p hp => by simp)
  · cases i <;>
      exact send_req_all a env _ _ "identify" net _ (fun p hp => by simp)

/-- C5 counterexample: with `data-exclude-search="true"` on a page whose
URL carries a query string, the initial page view sent by `init` still
reports the full URL, query included — the exclusion is not applied to
the initial `currentUrl = href`. -/
theorem c5_counterexample :
    excludeSearch attrsES = true
    ∧ ((step attrsES envQ (freshState envQ) Op.initOp NetResult.jsonNull).2.map
        (fun r => r.payload.url)) = [some "https://example.com/page?q=1"] := by
  exact ⟨rfl, by decide⟩

/-- C5 (amended): the query/hash exclusions apply to the URLs stored by
the pushState/replaceState hook — `handlePush` clears `search` and `hash`
per configuration before storing — while the initial page view uses
`location.href` unmodified; every page-view payload reports the stored
`currentUrl`. -/
theorem c5_amended_strip_on_push :
    ∀ (a : ScriptAttrs) (env : Env) (st : TrackerState) (u : Url),
    (handlePush a st (some u)).1.currentUrl
      = u.base ++ (if excludeSearch a then "" else u.search)
          ++ (if excludeHash a then "" else u.hash)
    ∧ (freshState env).currentUrl = env.href
    ∧ (getPayload a env st).url = some st.currentUrl := by
  intro a env st u
  refine ⟨?_, rfl, rfl⟩
  by_cases hs : excludeSearch a = true <;> by_cases hh : excludeHash a = true <;>
    simp [handlePush, stripUrl, Url.toStr, hs, hh]

/-- C7 counterexample: `identify` with the empty string — a string id —
emits a payload whose `id` field is absent, because `getPayload` drops a
falsy identity; after a successful `identify('u')`, a subsequent `track`
with a direct object payload also lacks the id; and a before-send
callback can strip it from any request. -/
theorem c7_counterexample :
    ((identify attrs0 env0 (freshState env0) (IdArg.strId "") none
        NetResult.jsonNull).2.map (fun r => (r.rtype, r.payload.id)))
      = [("identify", none)]
    ∧ ((track attrs0 env0
        (identify attrs0 env0 (freshState env0) (IdArg.strId "u") none
          NetResult.jsonNull).1
        (TrackArg.objArg emptyPayload) NetResult.jsonNull).2.map
      (fun r => r.payload.id)) = [none]
    ∧ ((identify attrs0 envStripId (freshState envStripId) (IdArg.strId "u")
        none NetResult.jsonNull).2.map (fun r => r.payload.id)) = [none] := by
  exact ⟨by decide, by decide, by decide⟩

/-- C7 (amended): after `identify(id)` with a nonempty string id, that
request is typed "identify" and its payload carries `id` equal to the
identity, the identity is stored, and — while the stored identity is that
nonempty string and no before-send callback is configured — every later
page-view or named-event request carries the same `id`; `track` never
changes the identity; and when no identity is set, or it is the empty
string, `getPayload` leaves the `id` field undefined (absent). -/
theorem c7_amended_identity :
    ∀ (a : ScriptAttrs) (env : Env) (st st2 : TrackerState) (s : String)
      (d dd : Option (List (String × String))) (n : String) (arg : TrackArg)
      (net : NetResult),
    env.beforeSendCallback = none → s ≠ "" →
    (((identify a env st (IdArg.strId s) d net).2.all
        (fun r => r.rtype == "identify" && r.payload.id == some s)) = true
      ∧ (identify a env st (IdArg.strId s) d net).1.identity = some s)
    ∧ (st2.identity = some s →
        ((track a env st2 TrackArg.pageView net).2.all
          (fun r => r.payload.id == some s)) = true
        ∧ ((track a env st2 (TrackArg.named n dd) net).2.all
          (fun r => r.payload.id == some s)) = true)
    ∧ (track a env st2 arg net).1.identity = st2.identity
    ∧ (st.identity = none → (getPayload a env st).id = none)
    ∧ (getPayload a env { st with identity := some "" }).id = none := by
  intro a env st st2 s d dd n arg net hb hs
  refine ⟨⟨?_, ?_⟩, ?_, ?_, by intro h; simp [getPayload, h], by simp [getPayload]⟩
  · apply send_req_all
    intro p hp
    rw [beforeSendApply_none env _ _ hb] at hp
    injection hp with hp
    subst hp
    show (("identify" == "identify")
      && (getPayload a env
            { st with identity := some s, cache := some "" }).id == some s) = true
    simp [getPayload, hs]
  · exact (send_preserves a env { st with identity := some s, cache := some "" }
      (some { getPayload a env { st with identity := some s, cache := some "" } with
        data := d }) "identify" net).2.2.2.1
  · intro hid
    constructor
    · apply send_req_all
      intro p hp
      rw [beforeSendApply_none env _ _ hb] at hp
      injection hp with hp
      subst hp
      show ((getPayload a env st2).id == some s) = true
      simp [getPayload, hid, hs]
    · apply send_req_all
      intro p hp
      rw [beforeSendApply_none env _ _ hb] at hp
      injection hp with hp
      subst hp
      show ((getPayload a env st2).id == some s) = true
      simp [getPayload, hid, hs]
  · exact (track_preserves a env st2 arg net).2.2.2.1

/-- Witness for the amended C7 at a nonempty identity. -/
theorem c7_amended_witness :
    ((identify attrs0 env0 (freshState env0) (IdArg.strId "user-1") none
        NetResult.jsonNull).2.all
      (fun r => r.rtype == "identify" && r.payload.id == some "user-1")) = true :=
  (c7_amended_identity attrs0 env0 (freshState env0) (freshState env0) "user-1"
    none none "e" TrackArg.pageView NetResult.jsonNull rfl (by decide)).1.1
